import Mathlib

/-!
Verification development for the Vibe Music API backend (`main.py`, `schemas.py`).

The handlers are embedded shallowly: Python strings become `List Char`,
the MongoDB collections become Lean lists inside a `DB` record, and each
HTTP handler becomes a pure Lean function from its inputs (and the store
state) to its response (and the resulting store state).  Python string
primitives (`str.lower`, `str.strip`, `str.replace`, the `in` operator)
are reproduced below on `List Char` with Python semantics (ASCII case
folding, every-occurrence left-to-right replacement).
-/

/-- Python `str.lower` restricted to ASCII, applied characterwise. -/
def lowerChars (l : List Char) : List Char := l.map Char.toLower

/-- Removes the longest whitespace prefix, as the leading half of Python `str.strip()`. -/
def pyStripLeft : List Char → List Char
  | [] => []
  | c :: rest => if c.isWhitespace then pyStripLeft rest else c :: rest

/-- Python `str.strip()` with no argument: drop leading and trailing whitespace. -/
def pyStrip (l : List Char) : List Char :=
  (pyStripLeft ((pyStripLeft l).reverse)).reverse

/-- Python `needle in haystack` on strings: `pat` occurs as a contiguous substring of `s`. -/
def pyIn (pat : List Char) (s : List Char) : Bool :=
  match s with
  | [] => pat.isEmpty
  | c :: rest => pat.isPrefixOf (c :: rest) || pyIn pat rest

/-- Recursion core of `pyReplace`.  The `fuel` argument only makes the recursion
structural; it is initialised to the length of the scanned list, and every step
consumes at least one character and exactly one unit of fuel, so the `fuel = 0`
fallback is never reached from `pyReplace`. -/
def pyReplaceFuel (pat rep : List Char) : Nat → List Char → List Char
  | _, [] => []
  | 0, s => s
  | fuel + 1, c :: rest =>
    if pat ≠ [] ∧ pat.isPrefixOf (c :: rest) = true then
      rep ++ pyReplaceFuel pat rep fuel (rest.drop (pat.length - 1))
    else
      c :: pyReplaceFuel pat rep fuel rest

/-- Python `s.replace(pat, rep)`: replace every occurrence of `pat`, scanning left
to right.  (For the empty pattern Python would interleave `rep` everywhere; the
repository only ever calls `replace` with a nonempty pattern and `rep = ""`, and
on those inputs this definition agrees with Python exactly.) -/
def pyReplace (pat rep s : List Char) : List Char :=
  pyReplaceFuel pat rep s.length s

/-- Lowercase-then-strip normalisation applied to the transcript at the top of
`ai_command` (`t = (cmd.transcript or "").lower().strip()`). -/
def normalizeT (s : String) : List Char := pyStrip (lowerChars s.data)

/-- Case-insensitive substring test: the semantics of a MongoDB
`{"$regex": pat, "$options": "i"}` condition for a pattern that is literal text
(no regex metacharacters), as the code builds from user search terms. -/
def ciSub (pat field : List Char) : Bool := pyIn (lowerChars pat) (lowerChars field)

/-- Case-insensitive full-string equality: the semantics of a MongoDB
`{"$regex": "^term$", "$options": "i"}` condition for literal `term`, as the
code builds for genre filters. -/
def ciEq (a b : List Char) : Bool := decide (lowerChars a = lowerChars b)

example : pyReplace "play".data [] "find coldplay".data = "find cold".data := by decide
example : pyIn "fm".data "open fm now".data = true := by decide
example : pyStrip "  a b  ".data = "a b".data := by decide
example : ciEq "Rock".data "rock".data = true := by decide
example : ciEq "Rock".data "Rock Music".data = false := by decide
example : ciSub "cold".data "Coldplay".data = true := by decide

/-! ## Data model

Stored documents, one record type per collection (`schemas.py` plus the
implicit MongoDB `_id`).  `oid` is the document's `_id` rendered by `str()`
(`None` when the document has no `_id` key); the remaining fields are the
schema fields.  Playlists additionally model a possible custom string `id`
field, which the fallback branch of `add_song_to_playlist` queries. -/

structure SongDoc where
  oid : Option String
  title : String
  artist : String
  album : Option String
  cover_url : Option String
  audio_url : Option String
  duration_sec : Option Nat
  genre : Option String
deriving DecidableEq

structure PlaylistDoc where
  oid : Option String
  idField : Option String
  name : String
  description : Option String
  song_ids : List String
deriving DecidableEq

structure ChannelDoc where
  oid : Option String
  name : String
  description : Option String
  stream_url : String
  genre : Option String
deriving DecidableEq

/-- The document store: the three collections plus a counter from which the
store derives fresh opaque identifiers for inserted documents. -/
structure DB where
  songs : List SongDoc
  playlists : List PlaylistDoc
  channels : List ChannelDoc
  nextId : Nat
deriving DecidableEq

/-! ## Catalog query builder

`list_songs` builds `filter_q = {}`, then (Python truthiness: `if query:` /
`if genre:` skip both `None` and `""`) sets
`{"$or": [title regex query i, artist regex query i]}` and/or
`{"genre": {"$regex": "^genre$", "$options": "i"}}`.  The two filter shapes are
recorded structurally: `orQuery` holds the unanchored literal pattern, `genreQ`
the term wrapped as `^term$`. -/

/-- Python truthiness on an optional string parameter: `if param:` treats both
`None` and the empty string as absent. -/
def optTruthy : Option String → Option String
  | none => none
  | some s => if s = "" then none else some s

structure SongsFilter where
  orQuery : Option String
  genreQ : Option String
deriving DecidableEq

/-- Filter construction of `list_songs` (main.py lines 37-47). -/
def buildSongsFilter (query genre : Option String) : SongsFilter :=
  { orQuery := optTruthy query, genreQ := optTruthy genre }

/-- Modelled from the spec: evaluation of the `list_songs` filter document by
`database.get_documents` (the `database` module is absent from the sources) and
MongoDB.  Top-level keys combine with AND; `{"$regex": q, "$options": "i"}` on
a literal pattern is a case-insensitive substring test; `"^g$"` anchors it to a
case-insensitive full-string match; a regex condition on a missing field does
not match. -/
def matchSongsFilter (f : SongsFilter) (d : SongDoc) : Bool :=
  (match f.orQuery with
   | none => true
   | some q => ciSub q.data d.title.data || ciSub q.data d.artist.data) &&
  (match f.genreQ with
   | none => true
   | some g =>
     match d.genre with
     | none => false
     | some dg => ciEq g.data dg.data)

structure ChannelsFilter where
  genreQ : Option String
deriving DecidableEq

/-- Filter construction of `list_channels` (main.py lines 125-127). -/
def buildChannelsFilter (genre : Option String) : ChannelsFilter :=
  { genreQ := optTruthy genre }

/-- Modelled from the spec: evaluation of the `list_channels` filter document,
same `^genre$`/option-`i` semantics as for songs. -/
def matchChannelsFilter (f : ChannelsFilter) (d : ChannelDoc) : Bool :=
  match f.genreQ with
  | none => true
  | some g =>
    match d.genre with
    | none => false
    | some dg => ciEq g.data dg.data

/-- Modelled from the spec: `database.get_documents(collection, filter, limit)`
(absent from the sources) executes the filter predicate against the collection
and returns at most `limit` matching records, in collection order. -/
def getDocuments {α : Type} (docs : List α) (pred : α → Bool) (limit : Nat) : List α :=
  (docs.filter pred).take limit

/-! ## Response normalisation

`for d in docs: if "_id" in d: d["id"] = str(d["_id"]); del d["_id"]` — each
endpoint moves the raw `_id` into a string `id` field.  Items keep a `rawId`
slot so that the absence of the raw identifier after normalisation is a proved
property of the transformation rather than a typing accident. -/

structure SongItem where
  rawId : Option String
  id : Option String
  title : String
  artist : String
  album : Option String
  cover_url : Option String
  audio_url : Option String
  duration_sec : Option Nat
  genre : Option String
deriving DecidableEq

structure PlaylistItem where
  rawId : Option String
  id : Option String
  name : String
  description : Option String
  song_ids : List String
deriving DecidableEq

structure ChannelItem where
  rawId : Option String
  id : Option String
  name : String
  description : Option String
  stream_url : String
  genre : Option String
deriving DecidableEq

/-- Identifier normalisation for a song document: when `_id` is present it is
deleted and its string rendering stored under `id`; otherwise the record is
returned as-is (no `id` key is added). -/
def normalizeSong (d : SongDoc) : SongItem :=
  match d.oid with
  | some o =>
    { rawId := none, id := some o, title := d.title, artist := d.artist, album := d.album,
      cover_url := d.cover_url, audio_url := d.audio_url, duration_sec := d.duration_sec,
      genre := d.genre }
  | none =>
    { rawId := none, id := none, title := d.title, artist := d.artist, album := d.album,
      cover_url := d.cover_url, audio_url := d.audio_url, duration_sec := d.duration_sec,
      genre := d.genre }

/-- Identifier normalisation for a playlist document; when `_id` is present its
string form overwrites any stored custom `id` field, otherwise a stored `id`
field survives untouched. -/
def normalizePlaylist (d : PlaylistDoc) : PlaylistItem :=
  match d.oid with
  | some o =>
    { rawId := none, id := some o, name := d.name, description := d.description,
      song_ids := d.song_ids }
  | none =>
    { rawId := none, id := d.idField, name := d.name, description := d.description,
      song_ids := d.song_ids }

/-- Identifier normalisation for a channel document. -/
def normalizeChannel (d : ChannelDoc) : ChannelItem :=
  match d.oid with
  | some o =>
    { rawId := none, id := some o, name := d.name, description := d.description,
      stream_url := d.stream_url, genre := d.genre }
  | none =>
    { rawId := none, id := none, name := d.name, description := d.description,
      stream_url := d.stream_url, genre := d.genre }

/-! ## List endpoints -/

/-- `GET /api/songs` (main.py lines 34-54): build the filter from `query` and
`genre`, fetch up to `limit` documents, normalise identifiers. -/
def list_songs (db : DB) (query genre : Option String) (limit : Nat) : List SongItem :=
  (getDocuments db.songs (matchSongsFilter (buildSongsFilter query genre)) limit).map
    normalizeSong

/-- `GET /api/playlists` (main.py lines 76-84): empty filter, so every playlist
matches. -/
def list_playlists (db : DB) (limit : Nat) : List PlaylistItem :=
  (getDocuments db.playlists (fun _ => true) limit).map normalizePlaylist

/-- `GET /api/channels` (main.py lines 122-133). -/
def list_channels (db : DB) (genre : Option String) (limit : Nat) : List ChannelItem :=
  (getDocuments db.channels (matchChannelsFilter (buildChannelsFilter genre)) limit).map
    normalizeChannel

/-! ## Channel seeding -/

/-- The three fixed default channels of `seed_channels` (main.py lines 153-172),
without their store-assigned identifiers. -/
def defaultChannels : List (String × Option String × String × Option String) :=
  [("Lofi Beats FM", some "Chill lofi for focus",
    "https://streams.ilovemusic.de/iloveradio9.mp3", some "lofi"),
   ("Classic Rock FM", some "Rock anthems 24/7",
    "https://stream.revma.ihrhls.com/zc1469", some "rock"),
   ("Jazz Lounge", some "Smooth jazz and lounge",
    "https://us4.internet-radio.com/proxy/club107?mp=/stream", some "jazz")]

/-- Modelled from the spec: `database.create_document("channel", doc)` (absent
from the sources) inserts the validated record and the store assigns it a fresh
opaque identifier, rendered here from the `DB` counter. -/
def createChannelDoc (db : DB) (c : String × Option String × String × Option String) : DB :=
  { db with
    channels := db.channels ++
      [{ oid := some (toString db.nextId), name := c.1, description := c.2.1,
         stream_url := c.2.2.1, genre := c.2.2.2 }],
    nextId := db.nextId + 1 }

/-- `POST /api/channels/seed` (main.py lines 146-177): when
`count_documents({}) > 0` return the already-seeded message and change nothing;
otherwise insert the three defaults in order. -/
def seed_channels (db : DB) : String × DB :=
  if db.channels.length > 0 then
    ("Channels already seeded", db)
  else
    ("Seeded default channels", defaultChannels.foldl createChannelDoc db)

/-! ## Playlist add

`POST /api/playlists/add` (main.py lines 97-113).  Before the id lookup, line
102 runs
`db["playlist"].update_one({"_id": {"$eq": find_one({"_id": {"$exists": True}, "_id": {"$type": "objectId"}})}}, {})`.
The duplicate-key dict literal keeps only `{"_id": {"$type": "objectId"}}`
(Python last-key-wins), and the update document is the empty dict.  The pymongo
client refuses an empty update document (`ValueError: update cannot be empty`)
before anything is sent to the server; the `rejectEmptyUpdate` flag makes that
client behaviour explicit, `true` being the behaviour of the real client.  If a
client ever let the empty update through, its filter `{"_id": {"$eq": <whole
document or None>}}` matches no stored document (no `_id` equals a whole
document, and no document carries a null `_id`), so it performs no write either
way. -/

/-- Store operations issued by the playlist-add handler, in order. -/
inductive PlOp
  | findOneTyped
  | updateEmpty (found : Option PlaylistDoc)
  | updateAddByOid (pid sid : String)
  | updateAddById (pid sid : String)
deriving DecidableEq

/-- Handler response: `{ok: true}` or `HTTPException(500, detail)`. -/
inductive AddResp
  | ok
  | err (detail : String)
deriving DecidableEq

/-- `bson.ObjectId(s)` accepts a 24-character hexadecimal string (the only
`str` form it accepts) and raises `InvalidId` otherwise. -/
def isValidOid (s : String) : Bool :=
  s.length == 24 && s.data.all (fun c => c.isDigit || ('a' ≤ c && c ≤ 'f') || ('A' ≤ c && c ≤ 'F'))

/-- `str(ObjectId(s))` canonicalises the hex digits to lowercase. -/
def oidCanon (s : String) : String := ⟨lowerChars s.data⟩

/-- MongoDB `$addToSet` on `song_ids`: append unless already present. -/
def addToSetSong (sid : String) (p : PlaylistDoc) : PlaylistDoc :=
  if sid ∈ p.song_ids then p else { p with song_ids := p.song_ids ++ [sid] }

/-- `update_one`: apply `f` to the first element satisfying `pred`, if any. -/
def updateFirst {α : Type} (pred : α → Bool) (f : α → α) : List α → List α
  | [] => []
  | x :: xs => if pred x then f x :: xs else x :: updateFirst pred f xs

/-- `POST /api/playlists/add`: returns the response, the resulting store state,
and the trace of store operations issued. -/
def add_song_to_playlist (rejectEmptyUpdate : Bool) (dbOpt : Option DB)
    (playlist_id song_id : String) : AddResp × Option DB × List PlOp :=
  match dbOpt with
  | none => (.err "Database not available", none, [])
  | some db =>
    let found := db.playlists.find? (fun p => p.oid.isSome)
    if rejectEmptyUpdate then
      (.err "update cannot be empty", some db, [.findOneTyped, .updateEmpty found])
    else
      if isValidOid playlist_id then
        (.ok,
         some { db with
                playlists := updateFirst (fun p => p.oid == some (oidCanon playlist_id))
                  (addToSetSong song_id) db.playlists },
         [.findOneTyped, .updateEmpty found, .updateAddByOid playlist_id song_id])
      else
        (.ok,
         some { db with
                playlists := updateFirst (fun p => p.idField == some playlist_id)
                  (addToSetSong song_id) db.playlists },
         [.findOneTyped, .updateEmpty found, .updateAddById playlist_id song_id])

/-! ## AI voice command -/

inductive AiAction
  | none
  | play_channel
  | play_song
deriving DecidableEq

/-- A `get_documents` invocation issued by `ai_command`, recorded as the
collection queried and the limit passed. -/
structure StoreQuery where
  coll : String
  limit : Nat
deriving DecidableEq

structure AiOutcome where
  action : AiAction
  phrase : Option (List Char)
  queries : List StoreQuery
  chanItems : List ChannelItem
  songItems : List SongItem
  message : String
deriving DecidableEq

def channelKws : List String := ["play channel", "open channel", "play radio", "open radio", "fm"]

def songKws : List String := ["play song", "find song", "play", "find", "search"]

/-- Channel-intent test of main.py line 196. -/
def chanHit (t : List Char) : Bool := channelKws.any (fun k => pyIn k.data t)

/-- Song-intent test of main.py line 213. -/
def songHit (t : List Char) : Bool := songKws.any (fun k => pyIn k.data t)

/-- Channel residual phrase (main.py line 198): strip `"play"`, `"open"`,
`"channel"`, `"radio"`, `"fm"` in that order, then trim. -/
def chanResidual (t : List Char) : List Char :=
  pyStrip (pyReplace "fm".data []
    (pyReplace "radio".data []
      (pyReplace "channel".data []
        (pyReplace "open".data []
          (pyReplace "play".data [] t)))))

/-- Song residual phrase (main.py lines 215-218): strip `"play song"`,
`"find song"`, `"search song"`, `"search"`, `"play"` in that order, then trim. -/
def songResidual (t : List Char) : List Char :=
  pyStrip (pyReplace "play".data []
    (pyReplace "search".data []
      (pyReplace "search song".data []
        (pyReplace "find song".data []
          (pyReplace "play song".data [] t)))))

/-- Modelled from the spec: evaluation of the channel-branch filter of
`ai_command` (main.py lines 199-204) — match all when the keyword is empty,
otherwise `$or` of case-insensitive substring tests on `name` and `genre`. -/
def matchChanAi (kw : List Char) (d : ChannelDoc) : Bool :=
  if kw = [] then true
  else
    ciSub kw d.name.data ||
      (match d.genre with
       | Option.none => false
       | some g => ciSub kw g.data)

/-- Modelled from the spec: evaluation of the song-branch filter of `ai_command`
(main.py lines 219-224) — match all when the phrase is empty, otherwise `$or`
of case-insensitive substring tests on `title` and `artist`. -/
def matchSongAi (q : List Char) (d : SongDoc) : Bool :=
  if q = [] then true
  else ciSub q d.title.data || ciSub q d.artist.data

/-- `POST /api/ai/command` (main.py lines 183-232): normalise the transcript,
run the channel test, else the song test, else fall through to the help
message.  Besides the response fields, the outcome records the residual phrase
computed in the taken branch and the `get_documents` calls issued. -/
def ai_command (db : DB) (transcript : String) : AiOutcome :=
  let t := normalizeT transcript
  if t = [] then
    { action := .none, phrase := Option.none, queries := [], chanItems := [], songItems := [],
      message := "I didn\x27t catch that." }
  else if chanHit t then
    let keyword := chanResidual t
    let docs := getDocuments db.channels (matchChanAi keyword) 5
    { action := .play_channel, phrase := some keyword, queries := [⟨"channel", 5⟩],
      chanItems := docs.map normalizeChannel, songItems := [],
      message := "Found " ++ toString docs.length ++ " channel(s)" }
  else if songHit t then
    let query := songResidual t
    let docs := getDocuments db.songs (matchSongAi query) 10
    { action := .play_song, phrase := some query, queries := [⟨"song", 10⟩],
      chanItems := [], songItems := docs.map normalizeSong,
      message := "Found " ++ toString docs.length ++ " song(s)" }
  else
    { action := .none, phrase := Option.none, queries := [], chanItems := [], songItems := [],
      message := "Try: \x27Play channel jazz\x27 or \x27Find song by Coldplay\x27" }

/-! ## Sample data -/

def dbEmpty : DB := { songs := [], playlists := [], channels := [], nextId := 0 }

def songRock : SongDoc :=
  { oid := some "a1", title := "Thunder", artist := "AC", album := Option.none,
    cover_url := Option.none, audio_url := Option.none, duration_sec := Option.none,
    genre := some "rock" }

def songRockMusic : SongDoc :=
  { songRock with oid := some "a2", genre := some "Rock Music" }

def songColdplay : SongDoc :=
  { oid := some "a3", title := "Yellow", artist := "Coldplay", album := Option.none,
    cover_url := Option.none, audio_url := Option.none, duration_sec := Option.none,
    genre := Option.none }

def chanRock : ChannelDoc :=
  { oid := some "c1", name := "Classic Rock FM", description := Option.none,
    stream_url := "https://stream.example/rock", genre := some "rock" }

def plRoadTrip : PlaylistDoc :=
  { oid := some "507f1f77bcf86cd799439011", idField := Option.none, name := "Road Trip",
    description := Option.none, song_ids := [] }

def dbOnePlaylist : DB :=
  { songs := [], playlists := [plRoadTrip], channels := [], nextId := 0 }

def dbOneChan : DB :=
  { songs := [songColdplay], playlists := [plRoadTrip], channels := [chanRock], nextId := 5 }

/-! ## Helper lemmas -/

lemma toLower_ws {c : Char} (h : c.isWhitespace = true) : c.toLower = c := by
  simp only [Char.isWhitespace, Bool.or_eq_true, decide_eq_true_eq] at h
  rcases h with ((h | h) | h) | h <;> subst h <;> decide

lemma lowerChars_ws {l : List Char} (h : ∀ c ∈ l, c.isWhitespace = true) :
    lowerChars l = l := by
  induction l with
  | nil => rfl
  | cons c t ih =>
    have h1 : c.isWhitespace = true := h c (by simp)
    have h2 : ∀ x ∈ t, x.isWhitespace = true := fun x hx => h x (by simp [hx])
    have ht := ih h2
    simp only [lowerChars, List.map_cons] at ht ⊢
    rw [toLower_ws h1, ht]

lemma stripLeft_ws {l : List Char} (h : ∀ c ∈ l, c.isWhitespace = true) :
    pyStripLeft l = [] := by
  induction l with
  | nil => rfl
  | cons c t ih =>
    have h1 : c.isWhitespace = true := h c (by simp)
    have h2 : ∀ x ∈ t, x.isWhitespace = true := fun x hx => h x (by simp [hx])
    simp [pyStripLeft, h1, ih h2]

lemma normalizeT_ws {s : String} (h : ∀ c ∈ s.data, c.isWhitespace = true) :
    normalizeT s = [] := by
  unfold normalizeT pyStrip
  rw [lowerChars_ws h, stripLeft_ws h]
  simp [pyStripLeft]

/-! ## Claim theorems -/

/-- C4: any transcript whose normalised form contains both a channel keyword
and a song keyword is classified `play_channel`, never `play_song`: the channel
test runs first and is terminal. -/
theorem c4_channel_priority (db : DB) (s : String)
    (hc : chanHit (normalizeT s) = true) (_hs : songHit (normalizeT s) = true) :
    (ai_command db s).action = AiAction.play_channel := by
  by_cases ht : normalizeT s = []
  · rw [ht] at hc; exact absurd hc (by decide)
  · simp [ai_command, ht, hc]

/-- Witness for C4 at the transcript `"play song on fm"`, which contains the
channel keyword `"fm"` and the song keyword `"play song"`. -/
theorem c4_channel_priority_witness :
    (ai_command dbEmpty "play song on fm").action = AiAction.play_channel :=
  c4_channel_priority dbEmpty "play song on fm" (by decide) (by decide)

/-- C9: a transcript that is empty or all whitespace yields action `none` and
issues no store query. -/
theorem c9_empty_transcript (db : DB) (s : String)
    (h : ∀ c ∈ s.data, c.isWhitespace = true) :
    (ai_command db s).action = AiAction.none ∧ (ai_command db s).queries = [] := by
  have ht := normalizeT_ws h
  simp [ai_command, ht]

/-- Witness for C9 at the all-whitespace transcript `"   "`. -/
theorem c9_empty_transcript_witness :
    (ai_command dbEmpty "   ").action = AiAction.none ∧
      (ai_command dbEmpty "   ").queries = [] :=
  c9_empty_transcript dbEmpty "   " (by decide)

/-- C10: `"find coldplay"` is classified `play_song` and its residual phrase is
`"find cold"` — the bare keyword `"find"` is never stripped (it is absent from
the replacement list), while `"play"` is stripped from every occurrence, here
inside the word `"coldplay"`. -/
theorem c10_find_kept_play_stripped :
    (ai_command dbEmpty "find coldplay").action = AiAction.play_song ∧
    (ai_command dbEmpty "find coldplay").phrase = some "find cold".data ∧
    songResidual "find".data = "find".data := by decide

/-- C3 counterexample: the transcript `"find song by Coldplay"` yields residual
phrase `"by cold"`, not `"by coldplay"` as the claim states — the final
`replace("play", "")` pass also strips the `"play"` inside `"coldplay"`. -/
theorem c3_residual_example_false :
    (ai_command dbEmpty "find song by Coldplay").phrase = some "by cold".data ∧
    "by cold".data ≠ "by coldplay".data := by decide

/-- C3 (amended): in the song branch, the residual phrase is the normalised
(lowercased, trimmed) transcript with `"play song"`, `"find song"`,
`"search song"`, `"search"`, `"play"` removed in that order and then trimmed;
transcript `"find song by Coldplay"` yields `"by cold"`. -/
theorem c3_residual_amended (db : DB) (s : String)
    (hc : chanHit (normalizeT s) = false) (hs : songHit (normalizeT s) = true) :
    (ai_command db s).action = AiAction.play_song ∧
    (ai_command db s).phrase =
      some (pyStrip (pyReplace "play".data []
        (pyReplace "search".data []
          (pyReplace "search song".data []
            (pyReplace "find song".data []
              (pyReplace "play song".data [] (normalizeT s))))))) := by
  by_cases ht : normalizeT s = []
  · rw [ht] at hs; exact absurd hs (by decide)
  · simp [ai_command, ht, hc, hs, songResidual]

/-- Witness for the amended C3 at `"find song by Coldplay"`. -/
theorem c3_residual_amended_witness :
    (ai_command dbEmpty "find song by Coldplay").action = AiAction.play_song ∧
    (ai_command dbEmpty "find song by Coldplay").phrase =
      some (pyStrip (pyReplace "play".data []
        (pyReplace "search".data []
          (pyReplace "search song".data []
            (pyReplace "find song".data []
              (pyReplace "play song".data []
                (normalizeT "find song by Coldplay"))))))) :=
  c3_residual_amended dbEmpty "find song by Coldplay" (by decide) (by decide)

/-- C5: a nonempty genre parameter filters songs and channels down to exactly
the records whose genre field is present and equals the parameter
case-insensitively as a full string, not a substring. -/
theorem c5_genre_exact_ci (g : String) (d : SongDoc) (c : ChannelDoc) (hg : g ≠ "") :
    (matchSongsFilter (buildSongsFilter Option.none (some g)) d = true ↔
      ∃ dg, d.genre = some dg ∧ lowerChars dg.data = lowerChars g.data) ∧
    (matchChannelsFilter (buildChannelsFilter (some g)) c = true ↔
      ∃ cg, c.genre = some cg ∧ lowerChars cg.data = lowerChars g.data) := by
  constructor
  · simp only [matchSongsFilter, buildSongsFilter, optTruthy]
    rw [if_neg hg]
    cases hd : d.genre with
    | none =>
      simp only [Bool.true_and]
      constructor
      · intro h; exact absurd h (by decide)
      · rintro ⟨x, hx, -⟩; cases hx
    | some dg =>
      simp only [Bool.true_and, ciEq, decide_eq_true_eq]
      constructor
      · intro h; exact ⟨dg, rfl, h.symm⟩
      · rintro ⟨x, hx, h⟩; cases hx; exact h.symm
  · simp only [matchChannelsFilter, buildChannelsFilter, optTruthy]
    rw [if_neg hg]
    cases hd : c.genre with
    | none =>
      dsimp only
      constructor
      · intro h; exact absurd h (by decide)
      · rintro ⟨x, hx, -⟩; cases hx
    | some cg =>
      dsimp only
      simp only [ciEq, decide_eq_true_eq]
      constructor
      · intro h; exact ⟨cg, rfl, h.symm⟩
      · rintro ⟨x, hx, h⟩; cases hx; exact h.symm

/-- Witness for C5: genre filter `"Rock"` matches stored genre `"rock"` and
does not match stored genre `"Rock Music"`. -/
theorem c5_genre_exact_ci_witness :
    matchSongsFilter (buildSongsFilter Option.none (some "Rock")) songRock = true ∧
    matchSongsFilter (buildSongsFilter Option.none (some "Rock")) songRockMusic = false := by
  constructor
  · exact (c5_genre_exact_ci "Rock" songRock chanRock (by decide)).1.mpr
      ⟨"rock", rfl, by decide⟩
  · decide

/-- C6: a nonempty free-text query filters songs to exactly the records whose
title or artist contains the query as a case-insensitive substring, and when a
nonempty genre is also given the two predicates combine with AND. -/
theorem c6_query_substring_and_genre (q g : String) (d : SongDoc)
    (hq : q ≠ "") (hg : g ≠ "") :
    (matchSongsFilter (buildSongsFilter (some q) Option.none) d = true ↔
      (ciSub q.data d.title.data = true ∨ ciSub q.data d.artist.data = true)) ∧
    (matchSongsFilter (buildSongsFilter (some q) (some g)) d = true ↔
      ((ciSub q.data d.title.data = true ∨ ciSub q.data d.artist.data = true) ∧
        ∃ dg, d.genre = some dg ∧ lowerChars dg.data = lowerChars g.data)) := by
  constructor
  · simp only [matchSongsFilter, buildSongsFilter, optTruthy]
    rw [if_neg hq]
    simp only [Bool.and_true, Bool.or_eq_true]
  · simp only [matchSongsFilter, buildSongsFilter, optTruthy]
    rw [if_neg hq, if_neg hg]
    cases hd : d.genre with
    | none =>
      simp only [Bool.and_eq_true, Bool.or_eq_true]
      constructor
      · rintro ⟨-, h⟩; exact absurd h (by decide)
      · rintro ⟨-, x, hx, -⟩; cases hx
    | some dg =>
      simp only [Bool.and_eq_true, Bool.or_eq_true, ciEq, decide_eq_true_eq]
      constructor
      · rintro ⟨h1, h2⟩; exact ⟨h1, dg, rfl, h2.symm⟩
      · rintro ⟨h1, x, hx, h2⟩; cases hx; exact ⟨h1, h2.symm⟩

/-- Witness for C6: query `"cold"` matches the song with artist `"Coldplay"`. -/
theorem c6_query_substring_and_genre_witness :
    matchSongsFilter (buildSongsFilter (some "cold") Option.none) songColdplay = true :=
  (c6_query_substring_and_genre "cold" "rock" songColdplay (by decide) (by decide)).1.mpr
    (Or.inr (by decide))

/-- C7: seeding is a no-op returning the already-seeded message whenever the
channel collection is nonempty, whatever its content; on an empty collection it
inserts exactly the three fixed default channels and touches nothing else. -/
theorem c7_seed_guard (db : DB) :
    (db.channels ≠ [] → seed_channels db = ("Channels already seeded", db)) ∧
    (db.channels = [] →
      seed_channels db =
        ("Seeded default channels",
         { db with
           channels := [
             { oid := some (toString db.nextId), name := "Lofi Beats FM",
               description := some "Chill lofi for focus",
               stream_url := "https://streams.ilovemusic.de/iloveradio9.mp3",
               genre := some "lofi" },
             { oid := some (toString (db.nextId + 1)), name := "Classic Rock FM",
               description := some "Rock anthems 24/7",
               stream_url := "https://stream.revma.ihrhls.com/zc1469",
               genre := some "rock" },
             { oid := some (toString (db.nextId + 2)), name := "Jazz Lounge",
               description := some "Smooth jazz and lounge",
               stream_url := "https://us4.internet-radio.com/proxy/club107?mp=/stream",
               genre := some "jazz" }],
           nextId := db.nextId + 3 })) := by
  obtain ⟨songs, playlists, channels, nextId⟩ := db
  constructor
  · intro h
    have hl : channels.length > 0 := by
      cases channels with
      | nil => exact absurd rfl h
      | cons a t => simp
    simp [seed_channels, hl]
  · intro h
    subst h
    simp [seed_channels, defaultChannels, createChannelDoc]

/-- Witness for C7: a store with one (non-default) channel is left untouched,
while seeding an empty store creates three channels. -/
theorem c7_seed_guard_witness :
    seed_channels dbOneChan = ("Channels already seeded", dbOneChan) ∧
    (seed_channels dbEmpty).2.channels.length = 3 := by
  constructor
  · exact (c7_seed_guard dbOneChan).1 (by decide)
  · rw [(c7_seed_guard dbEmpty).2 rfl]; rfl

/-! ## C8 helper lemmas -/

lemma mem_getDocuments {α : Type} {l : List α} {p : α → Bool} {n : Nat} {a : α}
    (h : a ∈ getDocuments l p n) : a ∈ l :=
  List.mem_of_mem_filter (List.take_subset _ _ h)

lemma normalizeSong_ok {d : SongDoc} (h : d.oid.isSome = true) :
    (normalizeSong d).id.isSome = true ∧ (normalizeSong d).rawId = Option.none := by
  cases hd : d.oid with
  | none => rw [hd] at h; exact absurd h (by decide)
  | some o => simp [normalizeSong, hd]

lemma normalizePlaylist_ok {d : PlaylistDoc} (h : d.oid.isSome = true) :
    (normalizePlaylist d).id.isSome = true ∧ (normalizePlaylist d).rawId = Option.none := by
  cases hd : d.oid with
  | none => rw [hd] at h; exact absurd h (by decide)
  | some o => simp [normalizePlaylist, hd]

lemma normalizeChannel_ok {d : ChannelDoc} (h : d.oid.isSome = true) :
    (normalizeChannel d).id.isSome = true ∧ (normalizeChannel d).rawId = Option.none := by
  cases hd : d.oid with
  | none => rw [hd] at h; exact absurd h (by decide)
  | some o => simp [normalizeChannel, hd]

lemma mapNorm_song {l : List SongDoc} {p : SongDoc → Bool} {n : Nat}
    (h : ∀ d ∈ l, d.oid.isSome = true) :
    ∀ it ∈ (getDocuments l p n).map normalizeSong,
      it.id.isSome = true ∧ it.rawId = Option.none := by
  intro it hit
  obtain ⟨d, hd, rfl⟩ := List.mem_map.mp hit
  exact normalizeSong_ok (h d (mem_getDocuments hd))

lemma mapNorm_playlist {l : List PlaylistDoc} {p : PlaylistDoc → Bool} {n : Nat}
    (h : ∀ d ∈ l, d.oid.isSome = true) :
    ∀ it ∈ (getDocuments l p n).map normalizePlaylist,
      it.id.isSome = true ∧ it.rawId = Option.none := by
  intro it hit
  obtain ⟨d, hd, rfl⟩ := List.mem_map.mp hit
  exact normalizePlaylist_ok (h d (mem_getDocuments hd))

lemma mapNorm_channel {l : List ChannelDoc} {p : ChannelDoc → Bool} {n : Nat}
    (h : ∀ d ∈ l, d.oid.isSome = true) :
    ∀ it ∈ (getDocuments l p n).map normalizeChannel,
      it.id.isSome = true ∧ it.rawId = Option.none := by
  intro it hit
  obtain ⟨d, hd, rfl⟩ := List.mem_map.mp hit
  exact normalizeChannel_ok (h d (mem_getDocuments hd))

lemma ai_chanItems_ok (db : DB) (transcript : String)
    (hc : ∀ d ∈ db.channels, d.oid.isSome = true) :
    ∀ it ∈ (ai_command db transcript).chanItems,
      it.id.isSome = true ∧ it.rawId = Option.none := by
  by_cases ht : normalizeT transcript = []
  · simp [ai_command, ht]
  · by_cases hch : chanHit (normalizeT transcript) = true
    · have := mapNorm_channel (p := matchChanAi (chanResidual (normalizeT transcript)))
        (n := 5) hc
      simpa [ai_command, ht, hch] using this
    · by_cases hsg : songHit (normalizeT transcript) = true <;>
        simp [ai_command, ht, hch, hsg]

lemma ai_songItems_ok (db : DB) (transcript : String)
    (hs : ∀ d ∈ db.songs, d.oid.isSome = true) :
    ∀ it ∈ (ai_command db transcript).songItems,
      it.id.isSome = true ∧ it.rawId = Option.none := by
  by_cases ht : normalizeT transcript = []
  · simp [ai_command, ht]
  · by_cases hch : chanHit (normalizeT transcript) = true
    · simp [ai_command, ht, hch]
    · by_cases hsg : songHit (normalizeT transcript) = true
      · have := mapNorm_song (p := matchSongAi (songResidual (normalizeT transcript)))
          (n := 10) hs
        simpa [ai_command, ht, hch, hsg] using this
      · simp [ai_command, ht, hch, hsg]

/-- C8: when every stored document carries an internal identifier (as MongoDB
guarantees for `_id`), every item returned by `GET /api/songs`,
`GET /api/playlists`, `GET /api/channels` and by the items of
`POST /api/ai/command` carries a string `id` field and no raw `_id` field. -/
theorem c8_id_normalization (db : DB) (query genre : Option String) (limit : Nat)
    (transcript : String)
    (hs : ∀ d ∈ db.songs, d.oid.isSome = true)
    (hp : ∀ d ∈ db.playlists, d.oid.isSome = true)
    (hc : ∀ d ∈ db.channels, d.oid.isSome = true) :
    (∀ it ∈ list_songs db query genre limit, it.id.isSome = true ∧ it.rawId = Option.none) ∧
    (∀ it ∈ list_playlists db limit, it.id.isSome = true ∧ it.rawId = Option.none) ∧
    (∀ it ∈ list_channels db genre limit, it.id.isSome = true ∧ it.rawId = Option.none) ∧
    (∀ it ∈ (ai_command db transcript).chanItems,
      it.id.isSome = true ∧ it.rawId = Option.none) ∧
    (∀ it ∈ (ai_command db transcript).songItems,
      it.id.isSome = true ∧ it.rawId = Option.none) :=
  ⟨mapNorm_song hs, mapNorm_playlist hp, mapNorm_channel hc,
   ai_chanItems_ok db transcript hc, ai_songItems_ok db transcript hs⟩

/-- Witness for C8 on a concrete store, instantiated at the first item of
`GET /api/songs` and the first item of the `ai_command` channel branch. -/
theorem c8_id_normalization_witness :
    (normalizeSong songColdplay).id.isSome = true ∧
      (normalizeSong songColdplay).rawId = Option.none :=
  (c8_id_normalization dbOneChan Option.none Option.none 50 "play channel rock"
      (by decide) (by decide) (by decide)).1
    (normalizeSong songColdplay) (by decide)

/-- C2: with the store handle set, the handler's first write is the line-102
update whose update document is `{}` — issued before any ObjectId or fallback
lookup — and with the real pymongo client, which rejects an empty update
document, every call returns the generic internal-error response with the
client's message and leaves the store unchanged. -/
theorem c2_empty_update_first (db : DB) (pid sid : String) :
    add_song_to_playlist true (some db) pid sid =
      (AddResp.err "update cannot be empty", some db,
       [PlOp.findOneTyped,
        PlOp.updateEmpty (db.playlists.find? (fun p => p.oid.isSome))]) := rfl

/-- C1 (code bug): at a well-formed request — store available, `playlist_id`
the valid ObjectId of a stored playlist — the handler does not return
`{ok: true}` and does not add `song_id`: the line-102 empty update is rejected
by the client, so the call returns the 500 response and the playlist's
`song_ids` stays empty instead of containing the song exactly once. -/
theorem c1_add_song_broken :
    add_song_to_playlist true (some dbOnePlaylist) "507f1f77bcf86cd799439011" "s1" =
      (AddResp.err "update cannot be empty", some dbOnePlaylist,
       [PlOp.findOneTyped, PlOp.updateEmpty (some plRoadTrip)]) ∧
    plRoadTrip.song_ids = [] := by
  constructor <;> rfl
